import Mathlib

/-!
Shallow embedding of the CloudHSMv2 cluster/HSM resource lifecycle code
(`aws/resource_aws_cloudhsm2_cluster.go`): the describe/refresh functions,
the transient-error retry wrapper around the mutating calls, the
state-convergence waiter configurations, and the create/read orchestration.

External collaborators (the remote CloudHSMv2 API, the tag-sync helper) are
modelled as oracle parameters: a remote describe call is an
`Except GoError (List Cluster)` value, a mutating call is a function from the
attempt number to its outcome, and the waiter outcome is a function of the
resource identifier the refresh closure would read.
-/

namespace CloudHsmV2

/-- A Go `error` value: either a structured AWS SDK error (code + message),
as tested by `isAWSErr`, or any other error. -/
inductive GoError
  | awsErr (code message : String)
  | generic (message : String)
deriving DecidableEq, Repr

/-- Naive check that `sub` starts the list `hay` (models the prefix test
underlying `strings.Contains`). -/
def startsWithL : List Char → List Char → Bool
  | [], _ => true
  | _ :: _, [] => false
  | a :: as, b :: bs => a == b && startsWithL as bs

/-- The call `containsL sub hay` models Go's `strings.Contains(hay, sub)` on char lists. -/
def containsL (sub : List Char) : List Char → Bool
  | [] => startsWithL sub []
  | h :: t => startsWithL sub (h :: t) || containsL sub t

/-- The call `strContains s sub` models Go's `strings.Contains(s, sub)`. -/
def strContains (s sub : String) : Bool := containsL sub.data s.data

/-- Models the provider helper `isAWSErr(err, code, message)`: the error is an
AWS error whose code equals `code` and whose message contains `message`. -/
def isAWSErr (err : GoError) (code message : String) : Bool :=
  match err with
  | .awsErr c m => c == code && strContains m message
  | .generic _ => false

/-- Models `cloudhsmv2.ErrCodeCloudHsmInternalFailureException`. -/
def ErrCodeCloudHsmInternalFailureException : String := "CloudHsmInternalFailureException"

/-- The message fragment tested at every retry call site in the source. -/
def cloudHsmInternalFailureMessage : String :=
  "request was rejected because of an AWS CloudHSM internal failure"

/-- The error classification shared by all four mutating call sites: an error
is retried exactly when `isAWSErr(err, ErrCodeCloudHsmInternalFailureException,
"request was rejected because of an AWS CloudHSM internal failure")` holds. -/
def cloudHsmRetryable (e : GoError) : Bool :=
  isAWSErr e ErrCodeCloudHsmInternalFailureException cloudHsmInternalFailureMessage

/-- Models `resource.Retry(maxElapsed, op)`: invoke `op` repeatedly; stop on
success or on a non-retryable error; a retryable error is retried while the
elapsed-time budget allows it.  `op n` is the outcome of attempt `n`, `dur n`
the time (plus one tick, so an attempt always consumes time) that attempt `n`
and its backoff take, and `budget` the remaining elapsed-time ceiling. -/
def resourceRetry {α : Type} (classify : GoError → Bool)
    (op : Nat → Except GoError α) (dur : Nat → Nat) :
    Nat → Nat → Except GoError α
  | attempt, budget =>
    match op attempt with
    | .ok a => .ok a
    | .error e =>
      if classify e then
        if h : dur attempt + 1 ≤ budget then
          resourceRetry classify op dur (attempt + 1) (budget - (dur attempt + 1))
        else .error e
      else .error e
termination_by _ budget => budget
decreasing_by omega

/-- The `resource.Retry(180*time.Second, ...)` wrapper around `CreateCluster`
(the `String` result is the assigned cluster id). -/
def clusterCreateMutate (op : Nat → Except GoError String) (dur : Nat → Nat) :
    Except GoError String :=
  resourceRetry cloudHsmRetryable op dur 0 180

/-- The `resource.Retry(180*time.Second, ...)` wrapper around `DeleteCluster`. -/
def clusterDeleteMutate (op : Nat → Except GoError Unit) (dur : Nat → Nat) :
    Except GoError Unit :=
  resourceRetry cloudHsmRetryable op dur 0 180

/-- The `resource.Retry(180*time.Second, ...)` wrapper around `CreateHsm`
(the `String` result is the assigned HSM id). -/
def hsmCreateMutate (op : Nat → Except GoError String) (dur : Nat → Nat) :
    Except GoError String :=
  resourceRetry cloudHsmRetryable op dur 0 180

/-- The `resource.Retry(180*time.Second, ...)` wrapper around `DeleteHsm`. -/
def hsmDeleteMutate (op : Nat → Except GoError Unit) (dur : Nat → Nat) :
    Except GoError Unit :=
  resourceRetry cloudHsmRetryable op dur 0 180

/-- The certificate fields of a `cloudhsmv2.Cluster` (`Certificates`). -/
structure Certificates where
  clusterCsr : String
  awsHardwareCertificate : String
  hsmCertificate : String
  manufacturerHardwareCertificate : String
  clusterCertificate : String
deriving DecidableEq, Repr

/-- A `cloudhsmv2.Hsm` as used by the code (string pointers modelled as
strings; absent values as `""`). -/
structure Hsm where
  hsmId : String
  clusterId : String
  subnetId : String
  availabilityZone : String
  eniId : String
  eniIp : String
  state : String
deriving DecidableEq, Repr

/-- A `cloudhsmv2.Cluster` as used by the code.  `subnetMapping` is the
availability-zone → subnet-id map (`SubnetMapping`), a list of pairs. -/
structure Cluster where
  clusterId : String
  state : String
  securityGroup : String
  vpcId : String
  sourceBackupId : String
  hsmType : String
  subnetMapping : List (String × String)
  certificates : Option Certificates
  hsms : List Hsm
deriving DecidableEq, Repr

/-- The Go loop `for _, c := range out.Clusters { if *c.ClusterId == clusterId
{ cluster = c } }`: last match wins, `none` when no id matches. -/
def findCluster (clusters : List Cluster) (clusterId : String) : Option Cluster :=
  clusters.foldl (fun acc c => if c.clusterId == clusterId then some c else acc) none

/-- The Go loop over `cluster.Hsms` matching `*h.HsmId == hsmId`. -/
def findHsm (hsms : List Hsm) (hsmId : String) : Option Hsm :=
  hsms.foldl (fun acc h => if h.hsmId == hsmId then some h else acc) none

/-- Models `describeCloudHsm2Cluster(clusterId, meta)`: issue `DescribeClusters`
(whose outcome is the oracle `remote`); on error return it; otherwise scan the
returned clusters for the matching id. -/
def describeCloudHsm2Cluster (clusterId : String)
    (remote : Except GoError (List Cluster)) : Except GoError (Option Cluster) :=
  match remote with
  | .error e => .error e
  | .ok clusters => .ok (findCluster clusters clusterId)

/-- Models `describeHsm(d, meta)`: locate the owning cluster by `cluster_id`, then
search its `Hsms` list for the resource id; errors from `DescribeClusters`
are returned, absence (of cluster or HSM) is `ok none`. -/
def describeHsm (clusterId hsmId : String)
    (remote : Except GoError (List Cluster)) : Except GoError (Option Hsm) :=
  match remote with
  | .error e => .error e
  | .ok clusters =>
    match findCluster clusters clusterId with
    | none => .ok none
    | some c => .ok (findHsm c.hsms hsmId)

/-- The first component of a Go `(interface{}, string, error)` refresh result:
a nil interface value, the literal placeholder `42` the code returns for an
absent entity, or a pointer to the entity. -/
inductive RefreshValue (α : Type)
  | nilValue
  | dummy42
  | entity (a : α)
deriving DecidableEq, Repr

/-- Models `resourceAwsCloudHsm2ClusterRefreshFunc`: call `describeCloudHsm2Cluster`;
if the returned cluster pointer is nil (which is the case both when the id is
absent from the listing and when the describe call itself failed), return
`(42, "destroyed", nil)`; otherwise return the cluster, its literal state and
the (then necessarily nil) error. -/
def resourceAwsCloudHsm2ClusterRefreshFunc (clusterId : String)
    (remote : Except GoError (List Cluster)) :
    RefreshValue Cluster × String × Option GoError :=
  let r := describeCloudHsm2Cluster clusterId remote
  let cluster : Option Cluster := match r with | .ok c => c | .error _ => none
  let err : Option GoError := match r with | .ok _ => none | .error e => some e
  match cluster with
  | none => (.dummy42, "destroyed", none)
  | some c => (.entity c, c.state, err)

/-- Models `resourceAwsCloudHsm2HsmRefreshFunc`: same shape as the cluster refresh,
over `describeHsm`. -/
def resourceAwsCloudHsm2HsmRefreshFunc (clusterId hsmId : String)
    (remote : Except GoError (List Cluster)) :
    RefreshValue Hsm × String × Option GoError :=
  let r := describeHsm clusterId hsmId remote
  let hsm : Option Hsm := match r with | .ok h => h | .error _ => none
  let err : Option GoError := match r with | .ok _ => none | .error e => some e
  match hsm with
  | none => (.dummy42, "destroyed", none)
  | some h => (.entity h, h.state, err)

/-- A value stored in the schema-keyed attribute store (`d.Set`/`d.Get`):
a string, a set/list of strings, or a `[]map[string]interface{}` whose maps
hold string values (the certificate projection). -/
inductive AttrValue
  | str (s : String)
  | strList (l : List String)
  | mapList (l : List (List (String × String)))
deriving DecidableEq, Repr

/-- A `*schema.ResourceData`: the resource id (`d.Id()`/`d.SetId`), the
attribute store, and the set of keys its schema declares (a `d.Set` on an
undeclared key fails inside the framework; the code ignores that error, so it
is modelled as a no-op). -/
structure ResourceData where
  id : String
  attrs : List (String × AttrValue)
  schemaKeys : List String
deriving DecidableEq, Repr

/-- Models `d.Set(k, v)`: update the store when `k` is a declared schema key,
otherwise leave the store unchanged (the framework's error is discarded). -/
def ResourceData.setAttr (rd : ResourceData) (k : String) (v : AttrValue) : ResourceData :=
  if rd.schemaKeys.contains k then
    { rd with attrs := (k, v) :: rd.attrs.filter (fun p => p.1 != k) }
  else rd

/-- Models `d.Get(k).(string)`: the stored string, or Go's zero value `""`. -/
def ResourceData.getStr (rd : ResourceData) (k : String) : String :=
  match rd.attrs.lookup k with
  | some (AttrValue.str s) => s
  | _ => ""

/-- Models `d.Get(k).(*schema.Set)` flattened to a string list, or the empty list. -/
def ResourceData.getStrList (rd : ResourceData) (k : String) : List String :=
  match rd.attrs.lookup k with
  | some (AttrValue.strList l) => l
  | _ => []

/-- The keys declared by the cluster resource's schema. -/
def clusterSchemaKeys : List String :=
  ["backup_identifier", "hsm_type", "subnet_ids", "cluster_id", "vpc_id",
   "cluster_certificates", "security_group_id", "cluster_state", "tags"]

/-- The keys declared by the HSM resource's schema. -/
def hsmSchemaKeys : List String :=
  ["cluster_id", "subnet_id", "availability_zone", "ip_address",
   "hsm_id", "hsm_state", "hsm_eni_id"]

/-- Models `readCloudHsm2ClusterCertificates`: the status-dependent certificate
projection; a one-element list holding the populated map. -/
def readCloudHsm2ClusterCertificates (cluster : Cluster) : List (List (String × String)) :=
  let certs : List (String × String) :=
    match cluster.certificates with
    | none => []
    | some cts =>
      if cluster.state == "UNINITIALIZED" then
        [("cluster_csr", cts.clusterCsr),
         ("aws_hardware_certificate", cts.awsHardwareCertificate),
         ("hsm_certificate", cts.hsmCertificate),
         ("manufacturer_hardware_certificate", cts.manufacturerHardwareCertificate)]
      else if cluster.state == "ACTIVE" then
        [("cluster_certificate", cts.clusterCertificate)]
      else []
  [certs]

/-- Models `resourceAwsCloudHsm2ClusterRead`: describe by `d.Id()`; when the cluster
is nil, clear the id and return the (possibly nil) describe error; otherwise
copy the observable fields into the store.  Note the source stores the
certificate projection under the key `"cluster_certificate"`, which is not a
key of the cluster schema (the schema declares `"cluster_certificates"`). -/
def resourceAwsCloudHsm2ClusterRead (rd : ResourceData)
    (remote : Except GoError (List Cluster)) : ResourceData × Option GoError :=
  let r := describeCloudHsm2Cluster rd.id remote
  let cluster : Option Cluster := match r with | .ok c => c | .error _ => none
  let err : Option GoError := match r with | .ok _ => none | .error e => some e
  match cluster with
  | none => ({ rd with id := "" }, err)
  | some c =>
    let rd := rd.setAttr "cluster_id" (AttrValue.str c.clusterId)
    let rd := rd.setAttr "cluster_state" (AttrValue.str c.state)
    let rd := rd.setAttr "security_group_id" (AttrValue.str c.securityGroup)
    let rd := rd.setAttr "vpc_id" (AttrValue.str c.vpcId)
    let rd := rd.setAttr "backup_identifier" (AttrValue.str c.sourceBackupId)
    let rd := rd.setAttr "hsm_type" (AttrValue.str c.hsmType)
    let rd := rd.setAttr "cluster_certificate"
      (AttrValue.mapList (readCloudHsm2ClusterCertificates c))
    let rd := rd.setAttr "subnet_ids"
      (AttrValue.strList (c.subnetMapping.map (fun p => p.2)))
    (rd, none)

/-- Models `resourceAwsCloudHsm2HsmRead`: describe the HSM; when nil, clear the id
and return the (possibly nil) error; otherwise copy the fields. -/
def resourceAwsCloudHsm2HsmRead (rd : ResourceData)
    (remote : Except GoError (List Cluster)) : ResourceData × Option GoError :=
  let r := describeHsm (rd.getStr "cluster_id") rd.id remote
  let hsm : Option Hsm := match r with | .ok h => h | .error _ => none
  let err : Option GoError := match r with | .ok _ => none | .error e => some e
  match hsm with
  | none => ({ rd with id := "" }, err)
  | some h =>
    let rd := rd.setAttr "cluster_id" (AttrValue.str h.clusterId)
    let rd := rd.setAttr "subnet_id" (AttrValue.str h.subnetId)
    let rd := rd.setAttr "availability_zone" (AttrValue.str h.availabilityZone)
    let rd := rd.setAttr "ip_address" (AttrValue.str h.eniIp)
    let rd := rd.setAttr "hsm_id" (AttrValue.str h.hsmId)
    let rd := rd.setAttr "hsm_state" (AttrValue.str h.state)
    let rd := rd.setAttr "hsm_eni_id" (AttrValue.str h.eniId)
    (rd, none)

/-- Models `cloudhsmv2.ClusterStateCreateInProgress`. -/
def clusterStateCreateInProgress : String := "CREATE_IN_PROGRESS"

/-- The second cluster pending state constant of the SDK (its literal value). -/
def clusterStateInitProgress : String := "INITIALIZE_IN_PROGRESS"

/-- The cluster state the backup-less create waits for (its literal value). -/
def clusterStateUninit : String := "UNINITIALIZED"

/-- Models `cloudhsmv2.ClusterStateActive`. -/
def clusterStateActive : String := "ACTIVE"

/-- Models `cloudhsmv2.ClusterStateDeleteInProgress`. -/
def clusterStateDeleteInProgress : String := "DELETE_IN_PROGRESS"

/-- Models `cloudhsmv2.ClusterStateDeleted`. -/
def clusterStateDeleted : String := "DELETED"

/-- Models `cloudhsmv2.HsmStateCreateInProgress`. -/
def hsmStateCreateInProgress : String := "CREATE_IN_PROGRESS"

/-- Models `cloudhsmv2.HsmStateActive`. -/
def hsmStateActive : String := "ACTIVE"

/-- Models `cloudhsmv2.HsmStateDeleteInProgress`. -/
def hsmStateDeleteInProgress : String := "DELETE_IN_PROGRESS"

/-- The per-resource configured timeouts (`schema.ResourceTimeout`), in
seconds; both resources default every entry to 120 minutes. -/
structure ResourceTimeouts where
  create : Nat
  update : Nat
  delete : Nat
deriving DecidableEq, Repr

/-- The key passed to `d.Timeout`. -/
inductive TimeoutKey
  | create
  | update
  | delete
deriving DecidableEq, Repr

/-- Models `d.Timeout(key)`: the configured timeout for that key. -/
def timeoutOf (t : ResourceTimeouts) : TimeoutKey → Nat
  | .create => t.create
  | .update => t.update
  | .delete => t.delete

/-- The data of a `resource.StateChangeConf` (the refresh closure is kept
separate, as an oracle). -/
structure StateChangeConf where
  pending : List String
  target : List String
  timeout : Nat
  minTimeout : Nat
  delay : Nat
deriving DecidableEq, Repr

/-- The cluster create target state: `UNINITIALIZED`, or `ACTIVE` when a
backup identifier was supplied (`len(backupId) > 0`). -/
def clusterCreateTargetState (backupId : String) : String :=
  if backupId.length > 0 then clusterStateActive else clusterStateUninit

/-- The `StateChangeConf` built by `resourceAwsCloudHsm2ClusterCreate`. -/
def clusterCreateStateConf (backupId : String) (t : ResourceTimeouts) : StateChangeConf :=
  { pending := [clusterStateCreateInProgress, clusterStateInitProgress],
    target := [clusterCreateTargetState backupId],
    timeout := timeoutOf t TimeoutKey.create,
    minTimeout := 30,
    delay := 30 }

/-- The `StateChangeConf` built by `resourceAwsCloudHsm2ClusterDelete`; its
timeout is `d.Timeout(schema.TimeoutCreate)` in the source. -/
def clusterDeleteStateConf (t : ResourceTimeouts) : StateChangeConf :=
  { pending := [clusterStateDeleteInProgress],
    target := [clusterStateDeleted],
    timeout := timeoutOf t TimeoutKey.create,
    minTimeout := 30,
    delay := 30 }

/-- The `StateChangeConf` built by `resourceAwsCloudHsm2HsmCreate`. -/
def hsmCreateStateConf (t : ResourceTimeouts) : StateChangeConf :=
  { pending := [hsmStateCreateInProgress, "destroyed"],
    target := [hsmStateActive],
    timeout := timeoutOf t TimeoutKey.create,
    minTimeout := 30,
    delay := 30 }

/-- The `StateChangeConf` built by `resourceAwsCloudHsm2HsmDelete`; its
timeout is `d.Timeout(schema.TimeoutCreate)` in the source. -/
def hsmDeleteStateConf (t : ResourceTimeouts) : StateChangeConf :=
  { pending := [hsmStateDeleteInProgress],
    target := ["destroyed"],
    timeout := timeoutOf t TimeoutKey.create,
    minTimeout := 30,
    delay := 30 }

/-- A `cloudhsmv2.CreateClusterInput` as built by the cluster create. -/
structure CreateClusterInput where
  hsmType : String
  subnetIds : List String
  sourceBackupId : Option String
deriving DecidableEq, Repr

/-- The request construction of `resourceAwsCloudHsm2ClusterCreate`:
`SourceBackupId` is set only when `len(backupId) != 0`. -/
def buildCreateClusterInput (hsmType : String) (subnetIds : List String)
    (backupId : String) : CreateClusterInput :=
  { hsmType := hsmType,
    subnetIds := subnetIds,
    sourceBackupId := if backupId.length ≠ 0 then some backupId else none }

/-- A `cloudhsmv2.CreateHsmInput` as built by the HSM create: cluster id,
availability zone, and an optional requested IP address.  The request has no
subnet field. -/
structure CreateHsmInput where
  clusterId : String
  availabilityZone : String
  ipAddress : Option String
deriving DecidableEq, Repr

/-- The loop in `resourceAwsCloudHsm2HsmCreate` resolving a missing
availability zone: scan the owning cluster's `SubnetMapping` for an entry
whose subnet equals `subnetId`; last match wins; `az0` is the initial value
(the zone read from the store). -/
def lookupZoneBySubnet (subnetMapping : List (String × String))
    (subnetId az0 : String) : String :=
  subnetMapping.foldl (fun acc p => if p.2 == subnetId then p.1 else acc) az0

/-- The request construction of `resourceAwsCloudHsm2HsmCreate`: when the
declared availability zone is empty, resolve it from the subnet via the
cluster's zone→subnet map; `IpAddress` is set only when non-empty. -/
def buildCreateHsmInput (clusterId az subnetId ipAddress : String)
    (subnetMapping : List (String × String)) : CreateHsmInput :=
  let az := if az.length = 0 then lookupZoneBySubnet subnetMapping subnetId az else az
  { clusterId := clusterId,
    availabilityZone := az,
    ipAddress := if ipAddress.length ≠ 0 then some ipAddress else none }

/-- The outcome of `stateConf.WaitForState()` as observed by the caller. -/
inductive WaitResult
  | ok
  | err (msg : String)
deriving DecidableEq, Repr

/-- An error returned by a create entry point: a remote/Go error, or the
wrapped wait failure (`fmt.Errorf(..., errWait)`). -/
inductive OpError
  | remote (e : GoError)
  | waitErr (msg : String)
deriving DecidableEq, Repr

/-- Models `resourceAwsCloudHsm2ClusterCreate`: build the request from the declared
fields, run `CreateCluster` through the 180s retry wrapper (`createOp` maps
the built request and the attempt number to the remote outcome, the assigned
cluster id on success), record the assigned id with `d.SetId`, wait for
convergence (`wait` is given the id the refresh closure reads), synchronize
tags (`tagsResult` is the outcome of `setTagsAwsCloudHsm2Cluster`), and
finally re-read. -/
def resourceAwsCloudHsm2ClusterCreate (rd : ResourceData)
    (createOp : CreateClusterInput → Nat → Except GoError String)
    (dur : Nat → Nat) (wait : String → WaitResult)
    (tagsResult : Option GoError)
    (readRemote : Except GoError (List Cluster)) : ResourceData × Option OpError :=
  let backupId := rd.getStr "backup_identifier"
  let input := buildCreateClusterInput (rd.getStr "hsm_type")
    (rd.getStrList "subnet_ids") backupId
  match clusterCreateMutate (createOp input) dur with
  | .error e => (rd, some (.remote e))
  | .ok newId =>
    let rd1 := { rd with id := newId }
    match wait rd1.id with
    | .err m => (rd1, some (.waitErr m))
    | .ok =>
      match tagsResult with
      | some e => (rd1, some (.remote e))
      | none =>
        let res := resourceAwsCloudHsm2ClusterRead rd1 readRemote
        (res.1, res.2.map OpError.remote)

/-- Models `resourceAwsCloudHsm2HsmCreate`: describe the owning cluster first; when
the cluster pointer is nil, return the (possibly nil) describe error without
doing anything else; otherwise build the request (resolving the availability
zone from the subnet when absent), run `CreateHsm` through the 180s retry
wrapper, record the assigned id, wait, and re-read. -/
def resourceAwsCloudHsm2HsmCreate (rd : ResourceData)
    (clusterRemote : Except GoError (List Cluster))
    (createOp : CreateHsmInput → Nat → Except GoError String)
    (dur : Nat → Nat) (wait : String → WaitResult)
    (readRemote : Except GoError (List Cluster)) : ResourceData × Option OpError :=
  let clusterId := rd.getStr "cluster_id"
  let r := describeCloudHsm2Cluster clusterId clusterRemote
  let cluster : Option Cluster := match r with | .ok c => c | .error _ => none
  let err : Option GoError := match r with | .ok _ => none | .error e => some e
  match cluster with
  | none => (rd, err.map OpError.remote)
  | some c =>
    let input := buildCreateHsmInput clusterId (rd.getStr "availability_zone")
      (rd.getStr "subnet_id") (rd.getStr "ip_address") c.subnetMapping
    match hsmCreateMutate (createOp input) dur with
    | .error e => (rd, some (.remote e))
    | .ok newId =>
      let rd1 := { rd with id := newId }
      match wait rd1.id with
      | .err m => (rd1, some (.waitErr m))
      | .ok =>
        let res := resourceAwsCloudHsm2HsmRead rd1 readRemote
        (res.1, res.2.map OpError.remote)

/-- Helper: a successful attempt ends the retry loop with that result. -/
theorem resourceRetry_ok {α : Type} (classify : GoError → Bool)
    (op : Nat → Except GoError α) (dur : Nat → Nat) (attempt budget : Nat)
    (a : α) (h : op attempt = Except.ok a) :
    resourceRetry classify op dur attempt budget = Except.ok a := by
  unfold resourceRetry
  rw [h]

/-- Helper: a non-retryable error is returned immediately, whatever the
remaining budget. -/
theorem resourceRetry_nonretryable {α : Type} (classify : GoError → Bool)
    (op : Nat → Except GoError α) (dur : Nat → Nat) (attempt budget : Nat)
    (e : GoError) (h : op attempt = Except.error e) (hc : classify e = false) :
    resourceRetry classify op dur attempt budget = Except.error e := by
  unfold resourceRetry
  rw [h]
  simp [hc]

/-- Helper: a retryable error with enough remaining budget leads to the next
attempt, with the budget reduced by the attempt's duration. -/
theorem resourceRetry_retry_step {α : Type} (classify : GoError → Bool)
    (op : Nat → Except GoError α) (dur : Nat → Nat) (attempt budget : Nat)
    (e : GoError) (h : op attempt = Except.error e) (hc : classify e = true)
    (hb : dur attempt + 1 ≤ budget) :
    resourceRetry classify op dur attempt budget
      = resourceRetry classify op dur (attempt + 1) (budget - (dur attempt + 1)) := by
  conv_lhs => unfold resourceRetry
  rw [h]
  simp [hc, hb]

/-- Helper: a retryable error with the budget exhausted is returned. -/
theorem resourceRetry_exhausted {α : Type} (classify : GoError → Bool)
    (op : Nat → Except GoError α) (dur : Nat → Nat) (attempt budget : Nat)
    (e : GoError) (h : op attempt = Except.error e) (hc : classify e = true)
    (hb : budget < dur attempt + 1) :
    resourceRetry classify op dur attempt budget = Except.error e := by
  have hn : ¬ (dur attempt + 1 ≤ budget) := by omega
  unfold resourceRetry
  rw [h]
  simp [hc, hn]

/-- Claim C1: for every call of the status refresh function (cluster or HSM)
in which the underlying describe call returns an error, the refresh function
propagates that error unchanged to its caller.  REFUTED at a concrete input:
both refresh functions return the placeholder `42`, the `"destroyed"` token
and a nil error when the describe call fails with a concrete error, because
the nil-entity check precedes the error check. -/
theorem refresh_error_propagation_cex :
    (CloudHsmV2.resourceAwsCloudHsm2ClusterRefreshFunc "cluster-1"
        (Except.error (CloudHsmV2.GoError.generic "boom"))).2.2
      ≠ some (CloudHsmV2.GoError.generic "boom") ∧
    CloudHsmV2.resourceAwsCloudHsm2ClusterRefreshFunc "cluster-1"
        (Except.error (CloudHsmV2.GoError.generic "boom"))
      = (CloudHsmV2.RefreshValue.dummy42, "destroyed", none) ∧
    (CloudHsmV2.resourceAwsCloudHsm2HsmRefreshFunc "cluster-1" "hsm-1"
        (Except.error (CloudHsmV2.GoError.generic "boom"))).2.2
      ≠ some (CloudHsmV2.GoError.generic "boom") ∧
    CloudHsmV2.resourceAwsCloudHsm2HsmRefreshFunc "cluster-1" "hsm-1"
        (Except.error (CloudHsmV2.GoError.generic "boom"))
      = (CloudHsmV2.RefreshValue.dummy42, "destroyed", none) := by
  refine ⟨by decide, rfl, by decide, rfl⟩

/-- Claim C1 (amended): both refresh functions swallow a describe error: the
error path yields a nil entity pointer, so the nil-entity branch returns the
placeholder `42`, the `"destroyed"` token and a nil error; consequently the
error component of every refresh result is nil. -/
theorem refresh_error_swallowed :
    ∀ (cid hid : String) (e : GoError),
      resourceAwsCloudHsm2ClusterRefreshFunc cid (Except.error e)
        = (RefreshValue.dummy42, "destroyed", none) ∧
      resourceAwsCloudHsm2HsmRefreshFunc cid hid (Except.error e)
        = (RefreshValue.dummy42, "destroyed", none) ∧
      (∀ remote, (resourceAwsCloudHsm2ClusterRefreshFunc cid remote).2.2 = none) ∧
      (∀ remote, (resourceAwsCloudHsm2HsmRefreshFunc cid hid remote).2.2 = none) := by
  intro cid hid e
  refine ⟨rfl, rfl, ?_, ?_⟩
  · intro remote
    cases hr : describeCloudHsm2Cluster cid remote with
    | error e' => simp [resourceAwsCloudHsm2ClusterRefreshFunc, hr]
    | ok oc =>
      cases oc with
      | none => simp [resourceAwsCloudHsm2ClusterRefreshFunc, hr]
      | some c => simp [resourceAwsCloudHsm2ClusterRefreshFunc, hr]
  · intro remote
    cases hr : describeHsm cid hid remote with
    | error e' => simp [resourceAwsCloudHsm2HsmRefreshFunc, hr]
    | ok oh =>
      cases oh with
      | none => simp [resourceAwsCloudHsm2HsmRefreshFunc, hr]
      | some h => simp [resourceAwsCloudHsm2HsmRefreshFunc, hr]

/-- Claim C2: when the describe call succeeds but the entity is absent, the
refresh function returns a NIL entity, `"destroyed"` and a nil error.
REFUTED at a concrete input: the entity component is the non-nil placeholder
`42`, not a nil value. -/
theorem refresh_absent_nonnil_cex :
    (CloudHsmV2.resourceAwsCloudHsm2ClusterRefreshFunc "cluster-1" (Except.ok [])).1
      = CloudHsmV2.RefreshValue.dummy42 ∧
    (CloudHsmV2.RefreshValue.dummy42 : CloudHsmV2.RefreshValue CloudHsmV2.Cluster)
      ≠ CloudHsmV2.RefreshValue.nilValue ∧
    (CloudHsmV2.resourceAwsCloudHsm2HsmRefreshFunc "cluster-1" "hsm-1" (Except.ok [])).1
      = CloudHsmV2.RefreshValue.dummy42 ∧
    (CloudHsmV2.RefreshValue.dummy42 : CloudHsmV2.RefreshValue CloudHsmV2.Hsm)
      ≠ CloudHsmV2.RefreshValue.nilValue := by
  refine ⟨rfl, by decide, rfl, by decide⟩

/-- Claim C2 (amended): when the describe call succeeds but the entity is
absent from the listing, the refresh function returns the non-nil placeholder
`42`, the sentinel token `"destroyed"` and a nil error; when the entity is
present, it returns the entity and its literal current status string with a
nil error. -/
theorem refresh_absent_and_present (cid hid : String) (clusters : List Cluster) :
    (findCluster clusters cid = none →
      resourceAwsCloudHsm2ClusterRefreshFunc cid (Except.ok clusters)
        = (RefreshValue.dummy42, "destroyed", none)) ∧
    (∀ c, findCluster clusters cid = some c →
      resourceAwsCloudHsm2ClusterRefreshFunc cid (Except.ok clusters)
        = (RefreshValue.entity c, c.state, none)) ∧
    (describeHsm cid hid (Except.ok clusters) = Except.ok none →
      resourceAwsCloudHsm2HsmRefreshFunc cid hid (Except.ok clusters)
        = (RefreshValue.dummy42, "destroyed", none)) ∧
    (∀ h, describeHsm cid hid (Except.ok clusters) = Except.ok (some h) →
      resourceAwsCloudHsm2HsmRefreshFunc cid hid (Except.ok clusters)
        = (RefreshValue.entity h, h.state, none)) := by
  refine ⟨?_, ?_, ?_, ?_⟩
  · intro h
    simp [resourceAwsCloudHsm2ClusterRefreshFunc, describeCloudHsm2Cluster, h]
  · intro c h
    simp [resourceAwsCloudHsm2ClusterRefreshFunc, describeCloudHsm2Cluster, h]
  · intro h
    simp [resourceAwsCloudHsm2HsmRefreshFunc, h]
  · intro hsm h
    simp [resourceAwsCloudHsm2HsmRefreshFunc, h]

/-- Witness for `refresh_absent_and_present` at a concrete absent cluster and
a concrete present HSM. -/
theorem refresh_absent_and_present_witness :
    CloudHsmV2.resourceAwsCloudHsm2ClusterRefreshFunc "cluster-1" (Except.ok [])
      = (CloudHsmV2.RefreshValue.dummy42, "destroyed", none) :=
  (CloudHsmV2.refresh_absent_and_present "cluster-1" "hsm-1" []).1 rfl

/-- Helper: a string of length zero is the empty string. -/
theorem string_eq_empty_of_length_zero {s : String} (h : s.length = 0) : s = "" := by
  cases s with
  | mk data =>
    cases data with
    | nil => rfl
    | cons c cs => simp [String.length] at h

/-- Helper: a non-empty string has positive length. -/
theorem string_length_pos_of_ne {s : String} (h : s ≠ "") : 0 < s.length := by
  by_contra hc
  exact h (string_eq_empty_of_length_zero (by omega))

/-- Claim C3: every mutating call site (cluster/HSM create and delete) wraps
its remote call in the retry primitive with a 180-second elapsed-time
ceiling, and the retry loop retries exactly while the error is classified as
the CloudHSM internal-failure kind (`isAWSErr` with
`ErrCodeCloudHsmInternalFailureException` and the internal-failure message),
returning immediately on any other error and returning the last error once
the budget is exhausted. -/
theorem retry_transient_only_and_ceiling :
    (∀ (op : Nat → Except GoError String) (dur : Nat → Nat),
      clusterCreateMutate op dur = resourceRetry cloudHsmRetryable op dur 0 180) ∧
    (∀ (op : Nat → Except GoError Unit) (dur : Nat → Nat),
      clusterDeleteMutate op dur = resourceRetry cloudHsmRetryable op dur 0 180) ∧
    (∀ (op : Nat → Except GoError String) (dur : Nat → Nat),
      hsmCreateMutate op dur = resourceRetry cloudHsmRetryable op dur 0 180) ∧
    (∀ (op : Nat → Except GoError Unit) (dur : Nat → Nat),
      hsmDeleteMutate op dur = resourceRetry cloudHsmRetryable op dur 0 180) ∧
    (∀ e, cloudHsmRetryable e
        = isAWSErr e ErrCodeCloudHsmInternalFailureException cloudHsmInternalFailureMessage) ∧
    (∀ (α : Type) (op : Nat → Except GoError α) (dur : Nat → Nat)
        (attempt budget : Nat) (e : GoError),
      op attempt = Except.error e →
      (cloudHsmRetryable e = false →
        resourceRetry cloudHsmRetryable op dur attempt budget = Except.error e) ∧
      (cloudHsmRetryable e = true → dur attempt + 1 ≤ budget →
        resourceRetry cloudHsmRetryable op dur attempt budget
          = resourceRetry cloudHsmRetryable op dur (attempt + 1) (budget - (dur attempt + 1))) ∧
      (cloudHsmRetryable e = true → budget < dur attempt + 1 →
        resourceRetry cloudHsmRetryable op dur attempt budget = Except.error e)) := by
  refine ⟨fun _ _ => rfl, fun _ _ => rfl, fun _ _ => rfl, fun _ _ => rfl,
    fun _ => rfl, ?_⟩
  intro α op dur attempt budget e h
  exact ⟨fun hc => resourceRetry_nonretryable _ op dur attempt budget e h hc,
    fun hc hb => resourceRetry_retry_step _ op dur attempt budget e h hc hb,
    fun hc hb => resourceRetry_exhausted _ op dur attempt budget e h hc hb⟩

/-- Witness for `retry_transient_only_and_ceiling`: a concrete non-retryable
error is returned immediately by the cluster-create retry wrapper. -/
theorem retry_transient_only_and_ceiling_witness :
    CloudHsmV2.resourceRetry CloudHsmV2.cloudHsmRetryable
        (fun _ => (Except.error (CloudHsmV2.GoError.awsErr "AccessDeniedException" "denied") :
          Except CloudHsmV2.GoError String))
        (fun _ => 1) 0 180
      = Except.error (CloudHsmV2.GoError.awsErr "AccessDeniedException" "denied") :=
  ((CloudHsmV2.retry_transient_only_and_ceiling).2.2.2.2.2 String
      (fun _ => Except.error (CloudHsmV2.GoError.awsErr "AccessDeniedException" "denied"))
      (fun _ => 1) 0 180
      (CloudHsmV2.GoError.awsErr "AccessDeniedException" "denied") rfl).1 (by decide)

/-- Claim C4: a backup-less cluster create waits with pending
`{CREATE_IN_PROGRESS, INITIALIZE_IN_PROGRESS}` and target `{UNINITIALIZED}`,
and SourceBackupId is left unset on the request; a create with a backup
identifier sets SourceBackupId on the request, keeps the pending set, and
waits for target `{ACTIVE}`. -/
theorem cluster_create_wait_configuration :
    ∀ (t : ResourceTimeouts) (hsmType : String) (subnetIds : List String)
      (backupId : String),
      (backupId = "" →
        (clusterCreateStateConf backupId t).pending
          = [clusterStateCreateInProgress, clusterStateInitProgress] ∧
        (clusterCreateStateConf backupId t).target = [clusterStateUninit] ∧
        (buildCreateClusterInput hsmType subnetIds backupId).sourceBackupId = none) ∧
      (backupId ≠ "" →
        (buildCreateClusterInput hsmType subnetIds backupId).sourceBackupId
          = some backupId ∧
        (clusterCreateStateConf backupId t).pending
          = [clusterStateCreateInProgress, clusterStateInitProgress] ∧
        (clusterCreateStateConf backupId t).target = [clusterStateActive]) := by
  intro t hsmType subnetIds backupId
  constructor
  · intro h
    subst h
    exact ⟨rfl, rfl, rfl⟩
  · intro h
    have hp : 0 < backupId.length := string_length_pos_of_ne h
    refine ⟨?_, rfl, ?_⟩
    · simp [buildCreateClusterInput]
      omega
    · simp [clusterCreateStateConf, clusterCreateTargetState, hp]

/-- Witness for `cluster_create_wait_configuration` at the backup identifier
`"backup-123"` and at the empty backup identifier. -/
theorem cluster_create_wait_configuration_witness :
    (CloudHsmV2.buildCreateClusterInput "hsm1.medium" ["subnet-1"] "backup-123").sourceBackupId
        = some "backup-123" ∧
    (CloudHsmV2.clusterCreateStateConf "backup-123" ⟨7200, 7200, 7200⟩).target
        = [CloudHsmV2.clusterStateActive] ∧
    (CloudHsmV2.clusterCreateStateConf "" ⟨7200, 7200, 7200⟩).target
        = [CloudHsmV2.clusterStateUninit] ∧
    (CloudHsmV2.clusterCreateStateConf "" ⟨7200, 7200, 7200⟩).pending
        = [CloudHsmV2.clusterStateCreateInProgress, CloudHsmV2.clusterStateInitProgress] := by
  have h1 := (CloudHsmV2.cluster_create_wait_configuration ⟨7200, 7200, 7200⟩
    "hsm1.medium" ["subnet-1"] "backup-123").2 (by decide)
  have h2 := (CloudHsmV2.cluster_create_wait_configuration ⟨7200, 7200, 7200⟩
    "hsm1.medium" ["subnet-1"] "").1 rfl
  exact ⟨h1.1, h1.2.2, h2.2.1, h2.1⟩

/-- Claim C5: every delete waiter has pending `{DELETE_IN_PROGRESS}`; the
cluster delete target is `{DELETED}` and does not contain the `"destroyed"`
sentinel; the HSM delete target is exactly `{"destroyed"}` and does not
contain the literal `DELETED`. -/
theorem delete_wait_sets :
    ∀ t : ResourceTimeouts,
      (clusterDeleteStateConf t).pending = [clusterStateDeleteInProgress] ∧
      (clusterDeleteStateConf t).target = [clusterStateDeleted] ∧
      "destroyed" ∉ (clusterDeleteStateConf t).target ∧
      (hsmDeleteStateConf t).pending = [hsmStateDeleteInProgress] ∧
      (hsmDeleteStateConf t).target = ["destroyed"] ∧
      clusterStateDeleted ∉ (hsmDeleteStateConf t).target := by
  intro t
  refine ⟨rfl, rfl, ?_, rfl, rfl, ?_⟩
  · simp [clusterDeleteStateConf, clusterStateDeleted]
  · simp [hsmDeleteStateConf, clusterStateDeleted]

/-- Helper: when no mapping entry has subnet `s`, the resolution loop leaves
its initial value unchanged. -/
theorem lookupZoneBySubnet_no_match (m : List (String × String)) (s az0 : String)
    (h : m.filter (fun p => p.2 == s) = []) :
    lookupZoneBySubnet m s az0 = az0 := by
  induction m generalizing az0 with
  | nil => rfl
  | cons hd tl ih =>
    simp only [List.filter_cons] at h
    by_cases hc : (hd.2 == s) = true
    · rw [if_pos hc] at h
      exact absurd h (List.cons_ne_nil _ _)
    · rw [if_neg hc] at h
      simp only [lookupZoneBySubnet, List.foldl_cons]
      rw [if_neg hc]
      exact ih az0 h

/-- Helper: when exactly one mapping entry `(z, s)` has subnet `s`, the
resolution loop returns `z`. -/
theorem lookupZoneBySubnet_unique (m : List (String × String)) (s z az0 : String)
    (h : m.filter (fun p => p.2 == s) = [(z, s)]) :
    lookupZoneBySubnet m s az0 = z := by
  induction m generalizing az0 with
  | nil => simp at h
  | cons hd tl ih =>
    simp only [List.filter_cons] at h
    by_cases hc : (hd.2 == s) = true
    · rw [if_pos hc] at h
      injection h with h1 h2
      subst h1
      simp only [lookupZoneBySubnet, List.foldl_cons]
      rw [if_pos (show (((z, s) : String × String).2 == s) = true by simp)]
      exact lookupZoneBySubnet_no_match tl s z h2
    · rw [if_neg hc] at h
      simp only [lookupZoneBySubnet, List.foldl_cons]
      rw [if_neg hc]
      exact ih az0 h

/-- The owning cluster of the C7 scenario: its mapping sends availability
zone `us-east-1a` to `subnet-77`. -/
def c7Cluster : Cluster :=
  { clusterId := "cluster-1"
    state := "ACTIVE"
    securityGroup := "sg-1"
    vpcId := "vpc-1"
    sourceBackupId := ""
    hsmType := "hsm1.medium"
    subnetMapping := [("us-east-1a", "subnet-77")]
    certificates := none
    hsms := [] }

/-- The declared HSM of the C7 scenario: only an availability zone is given,
no subnet. -/
def c7Data : ResourceData :=
  { id := ""
    attrs := [("cluster_id", AttrValue.str "cluster-1"),
              ("availability_zone", AttrValue.str "us-east-1a")]
    schemaKeys := hsmSchemaKeys }

/-- Claim C7: HSM placement resolution works in both directions.  REFUTED at
a concrete input: when only an availability zone is given, the owning
cluster's zone→subnet mapping is ignored entirely — the built create request
is identical with and without the mapping entry (the request carries no
subnet field), and after the create flow runs (halted at the wait step) the
store's `subnet_id` is still unset rather than the mapped `"subnet-77"`. -/
theorem hsm_placement_one_direction_cex :
    CloudHsmV2.buildCreateHsmInput "cluster-1" "us-east-1a" "" ""
        [("us-east-1a", "subnet-77")]
      = CloudHsmV2.buildCreateHsmInput "cluster-1" "us-east-1a" "" "" [] ∧
    ((CloudHsmV2.resourceAwsCloudHsm2HsmCreate CloudHsmV2.c7Data
        (Except.ok [CloudHsmV2.c7Cluster])
        (fun _ _ => Except.ok "hsm-9") (fun _ => 0)
        (fun _ => CloudHsmV2.WaitResult.err "halt")
        (Except.ok [])).1).getStr "subnet_id" ≠ "subnet-77" := by
  constructor
  · decide
  · have hm : CloudHsmV2.hsmCreateMutate (fun _ => Except.ok "hsm-9") (fun _ => 0)
        = Except.ok "hsm-9" := by
      unfold CloudHsmV2.hsmCreateMutate
      exact CloudHsmV2.resourceRetry_ok _ _ _ _ _ _ rfl
    simp only [CloudHsmV2.resourceAwsCloudHsm2HsmCreate,
      CloudHsmV2.describeCloudHsm2Cluster, CloudHsmV2.findCluster, hm]
    decide

/-- Claim C7 (amended): the placement resolution works in one direction only:
when the availability zone is empty it is resolved as the zone mapped to the
given subnet in the owning cluster's zone→subnet mapping; when an
availability zone is given it is used directly and the mapping plays no role
at all (the create request carries no subnet field, so no subnet is resolved
locally). -/
theorem hsm_az_resolution :
    (∀ (cid s ip z : String) (m : List (String × String)),
      m.filter (fun p => p.2 == s) = [(z, s)] →
      (buildCreateHsmInput cid "" s ip m).availabilityZone = z) ∧
    (∀ (cid az s ip : String) (m m' : List (String × String)),
      az ≠ "" →
      buildCreateHsmInput cid az s ip m = buildCreateHsmInput cid az s ip m') := by
  constructor
  · intro cid s ip z m h
    simp only [buildCreateHsmInput, String.length, List.length_nil, if_pos rfl]
    exact lookupZoneBySubnet_unique m s z "" h
  · intro cid az s ip m m' h
    have hp : az.length ≠ 0 := by
      have := string_length_pos_of_ne h
      omega
    simp [buildCreateHsmInput, hp]

/-- Witness for `hsm_az_resolution`: the concrete mapping
`us-east-1a → subnet-77` resolves an HSM declared with only `subnet-77` to
availability zone `us-east-1a`, and a declared zone is used as given. -/
theorem hsm_az_resolution_witness :
    (CloudHsmV2.buildCreateHsmInput "cluster-1" "" "subnet-77" ""
        [("us-east-1a", "subnet-77")]).availabilityZone = "us-east-1a" ∧
    CloudHsmV2.buildCreateHsmInput "cluster-1" "us-east-1b" "subnet-77" ""
        [("us-east-1a", "subnet-77")]
      = CloudHsmV2.buildCreateHsmInput "cluster-1" "us-east-1b" "subnet-77" "" [] :=
  ⟨(CloudHsmV2.hsm_az_resolution).1 "cluster-1" "subnet-77" "" "us-east-1a"
      [("us-east-1a", "subnet-77")] (by decide),
   (CloudHsmV2.hsm_az_resolution).2 "cluster-1" "us-east-1b" "subnet-77" ""
      [("us-east-1a", "subnet-77")] [] (by decide)⟩

/-- Claim C9: both delete waiters take their timeout from the create-timeout
configuration key; two timeout configurations that agree on the create entry
produce identical delete waiter configurations even when their delete entries
differ, so a user-configured delete timeout is ignored. -/
theorem delete_wait_uses_create_timeout :
    ∀ t : ResourceTimeouts,
      (clusterDeleteStateConf t).timeout = timeoutOf t TimeoutKey.create ∧
      (hsmDeleteStateConf t).timeout = timeoutOf t TimeoutKey.create ∧
      (∀ t' : ResourceTimeouts, t.create = t'.create →
        clusterDeleteStateConf t = clusterDeleteStateConf t' ∧
        hsmDeleteStateConf t = hsmDeleteStateConf t') := by
  intro t
  refine ⟨rfl, rfl, ?_⟩
  intro t' h
  constructor <;> simp [clusterDeleteStateConf, hsmDeleteStateConf, timeoutOf, h]

/-- Witness for `delete_wait_uses_create_timeout`: with create timeout 100
and delete timeout 300, both delete waiters use 100, and changing the delete
timeout to 2 changes nothing. -/
theorem delete_wait_uses_create_timeout_witness :
    (CloudHsmV2.clusterDeleteStateConf ⟨100, 200, 300⟩).timeout = 100 ∧
    CloudHsmV2.clusterDeleteStateConf ⟨100, 200, 300⟩
      = CloudHsmV2.clusterDeleteStateConf ⟨100, 1, 2⟩ ∧
    CloudHsmV2.hsmDeleteStateConf ⟨100, 200, 300⟩
      = CloudHsmV2.hsmDeleteStateConf ⟨100, 1, 2⟩ := by
  have h := CloudHsmV2.delete_wait_uses_create_timeout ⟨100, 200, 300⟩
  exact ⟨h.1, (h.2.2 ⟨100, 1, 2⟩ rfl).1, (h.2.2 ⟨100, 1, 2⟩ rfl).2⟩

/-- Claim C8: for every create (cluster or HSM) whose mutating call succeeds,
the assigned remote identifier is recorded in the state store before the
convergence wait begins (the waiter is invoked on the already-assigned id),
and when the wait fails the create returns an error with the identifier still
recorded. -/
theorem create_records_id_before_wait :
    ∀ (rd : ResourceData) (dur : Nat → Nat) (wait : String → WaitResult)
      (tagsResult : Option GoError) (readRemote : Except GoError (List Cluster))
      (newId msg : String),
      (∀ (createOp : CreateClusterInput → Nat → Except GoError String),
        clusterCreateMutate (createOp (buildCreateClusterInput (rd.getStr "hsm_type")
            (rd.getStrList "subnet_ids") (rd.getStr "backup_identifier"))) dur
          = Except.ok newId →
        wait newId = WaitResult.err msg →
        resourceAwsCloudHsm2ClusterCreate rd createOp dur wait tagsResult readRemote
          = ({ rd with id := newId }, some (OpError.waitErr msg))) ∧
      (∀ (clusterRemote : Except GoError (List Cluster)) (c : Cluster)
          (createOp : CreateHsmInput → Nat → Except GoError String),
        describeCloudHsm2Cluster (rd.getStr "cluster_id") clusterRemote
          = Except.ok (some c) →
        hsmCreateMutate (createOp (buildCreateHsmInput (rd.getStr "cluster_id")
            (rd.getStr "availability_zone") (rd.getStr "subnet_id")
            (rd.getStr "ip_address") c.subnetMapping)) dur = Except.ok newId →
        wait newId = WaitResult.err msg →
        resourceAwsCloudHsm2HsmCreate rd clusterRemote createOp dur wait readRemote
          = ({ rd with id := newId }, some (OpError.waitErr msg))) := by
  intro rd dur wait tagsResult readRemote newId msg
  constructor
  · intro createOp hm hw
    simp [resourceAwsCloudHsm2ClusterCreate, hm, hw]
  · intro clusterRemote c createOp hd hm hw
    simp [resourceAwsCloudHsm2HsmCreate, hd, hm, hw]

/-- Witness for `create_records_id_before_wait`: a concrete cluster create
whose mutating call assigns `cluster-abc` and whose wait times out leaves the
id recorded and returns the wait error. -/
theorem create_records_id_before_wait_witness :
    CloudHsmV2.resourceAwsCloudHsm2ClusterCreate
        ⟨"", [("hsm_type", CloudHsmV2.AttrValue.str "hsm1.medium")],
          CloudHsmV2.clusterSchemaKeys⟩
        (fun _ _ => Except.ok "cluster-abc") (fun _ => 0)
        (fun _ => CloudHsmV2.WaitResult.err "timeout") none (Except.ok [])
      = (⟨"cluster-abc", [("hsm_type", CloudHsmV2.AttrValue.str "hsm1.medium")],
          CloudHsmV2.clusterSchemaKeys⟩,
         some (CloudHsmV2.OpError.waitErr "timeout")) :=
  (CloudHsmV2.create_records_id_before_wait
      ⟨"", [("hsm_type", CloudHsmV2.AttrValue.str "hsm1.medium")],
        CloudHsmV2.clusterSchemaKeys⟩
      (fun _ => 0) (fun _ => CloudHsmV2.WaitResult.err "timeout") none (Except.ok [])
      "cluster-abc" "timeout").1 (fun _ _ => Except.ok "cluster-abc")
    (by
      unfold CloudHsmV2.clusterCreateMutate
      exact CloudHsmV2.resourceRetry_ok _ _ _ _ _ _ rfl)
    rfl

/-- Claim C10: an HSM create whose owning-cluster describe succeeds but finds
the cluster absent returns a nil error, issues no HSM create call (the result
does not depend on the create oracle or the waiter) and records no
identifier (the store is returned unchanged). -/
theorem hsm_create_absent_cluster_silent_success :
    ∀ (rd : ResourceData) (clusters : List Cluster)
      (createOp : CreateHsmInput → Nat → Except GoError String)
      (dur : Nat → Nat) (wait : String → WaitResult)
      (readRemote : Except GoError (List Cluster)),
      findCluster clusters (rd.getStr "cluster_id") = none →
      resourceAwsCloudHsm2HsmCreate rd (Except.ok clusters) createOp dur wait readRemote
        = (rd, none) := by
  intro rd clusters createOp dur wait readRemote h
  simp [resourceAwsCloudHsm2HsmCreate, describeCloudHsm2Cluster, h]

/-- Witness for `hsm_create_absent_cluster_silent_success`: an empty listing
makes the HSM create return the unchanged store and a nil error. -/
theorem hsm_create_absent_cluster_silent_success_witness :
    CloudHsmV2.resourceAwsCloudHsm2HsmCreate
        ⟨"", [("cluster_id", CloudHsmV2.AttrValue.str "cluster-1")],
          CloudHsmV2.hsmSchemaKeys⟩
        (Except.ok []) (fun _ _ => Except.ok "hsm-1") (fun _ => 0)
        (fun _ => CloudHsmV2.WaitResult.ok) (Except.ok [])
      = (⟨"", [("cluster_id", CloudHsmV2.AttrValue.str "cluster-1")],
          CloudHsmV2.hsmSchemaKeys⟩, none) :=
  CloudHsmV2.hsm_create_absent_cluster_silent_success
    ⟨"", [("cluster_id", CloudHsmV2.AttrValue.str "cluster-1")],
      CloudHsmV2.hsmSchemaKeys⟩
    [] (fun _ _ => Except.ok "hsm-1") (fun _ => 0)
    (fun _ => CloudHsmV2.WaitResult.ok) (Except.ok []) rfl

/-- The remote cluster of the C6 round-trip scenario: the created cluster as
the remote reports it once it has reached the target status `UNINITIALIZED`,
with every observable field populated and certificates present. -/
def c6Cluster : Cluster :=
  { clusterId := "cluster-abc"
    state := "UNINITIALIZED"
    securityGroup := "sg-123"
    vpcId := "vpc-123"
    sourceBackupId := ""
    hsmType := "hsm1.medium"
    subnetMapping := [("us-east-1a", "subnet-1"), ("us-east-1b", "subnet-2")]
    certificates := some { clusterCsr := "csr-pem"
                           awsHardwareCertificate := "aws-pem"
                           hsmCertificate := "hsm-pem"
                           manufacturerHardwareCertificate := "manu-pem"
                           clusterCertificate := "" }
    hsms := [] }

/-- The declared cluster resource of the C6 scenario (the user-declared
immutable fields, backup-less). -/
def c6InitialData : ResourceData :=
  { id := ""
    attrs := [("hsm_type", AttrValue.str "hsm1.medium"),
              ("subnet_ids", AttrValue.strList ["subnet-1", "subnet-2"]),
              ("backup_identifier", AttrValue.str "")]
    schemaKeys := clusterSchemaKeys }

/-- The C6 scenario: a cluster create whose mutating call assigns
`cluster-abc`, whose wait and tag sync succeed, followed by the re-read
against the conforming remote listing. -/
def c6Result : ResourceData × Option OpError :=
  resourceAwsCloudHsm2ClusterCreate c6InitialData (fun _ _ => Except.ok "cluster-abc")
    (fun _ => 0) (fun _ => WaitResult.ok) none (Except.ok [c6Cluster])

/-- Claim C6: a successful create followed by a read at a target status
reproduces every user-declared immutable field and populates every computed
field of the schema to a non-zero value.  The evaluation shows the code
violating the claim on one field: the create/read succeeds and reproduces
`hsm_type`, `subnet_ids` and `backup_identifier`, populates `cluster_id`,
`vpc_id`, `security_group_id` and `cluster_state`, and the certificate
projection of the remote cluster is non-empty — yet the computed
`cluster_certificates` field is left unset, because the read stores the
projection under the undeclared key `"cluster_certificate"`. -/
theorem cluster_create_read_certificates_bug :
    c6Result.2 = none ∧
    c6Result.1.id = "cluster-abc" ∧
    c6Result.1.getStr "hsm_type" = "hsm1.medium" ∧
    c6Result.1.getStrList "subnet_ids" = ["subnet-1", "subnet-2"] ∧
    c6Result.1.getStr "backup_identifier" = "" ∧
    c6Result.1.getStr "cluster_id" = "cluster-abc" ∧
    c6Result.1.getStr "vpc_id" = "vpc-123" ∧
    c6Result.1.getStr "security_group_id" = "sg-123" ∧
    c6Result.1.getStr "cluster_state" = "UNINITIALIZED" ∧
    readCloudHsm2ClusterCertificates c6Cluster ≠ [[]] ∧
    c6Result.1.attrs.lookup "cluster_certificates" = none := by
  have hm : clusterCreateMutate (fun _ => Except.ok "cluster-abc") (fun _ => 0)
      = Except.ok "cluster-abc" := by
    unfold clusterCreateMutate
    exact resourceRetry_ok _ _ _ _ _ _ rfl
  have hval : c6Result
      = ((resourceAwsCloudHsm2ClusterRead { c6InitialData with id := "cluster-abc" }
            (Except.ok [c6Cluster])).1,
         (resourceAwsCloudHsm2ClusterRead { c6InitialData with id := "cluster-abc" }
            (Except.ok [c6Cluster])).2.map OpError.remote) := by
    simp [c6Result, resourceAwsCloudHsm2ClusterCreate, hm]
  rw [hval]
  decide

end CloudHsmV2
